import Mathlib

/-!
Verification of the core of the QGIS ErrorInterceptor plugin:
error-message normalization (`ErrorInterceptorPlugin._normalize_error_message`),
duplicate-error suppression (`_is_duplicate_error` / `handle_qgis_error`),
the floating chat widget's conversation state (`FloatingChatWidget`), and the
response thread's backend adapters (`ResponseThread`), shallowly embedded from
the Python source.
-/

namespace ErrorInterceptor

/-! ## Error normalizer

`_normalize_error_message` applies, in order,
`re.sub(r'0x[0-9a-fA-F]+', '', .)`,
`re.sub(r'\d{4}-\d{2}-\d{2} \d{2}:\d{2}:\d{2}', '', .)`,
`re.sub(r'(?:[a-zA-Z]\:)?(?:\\|\/)[\w\-\. \\\/]+', '', .)`
and finally `str.strip()`.  Each pattern is embedded as a matcher that, given
a suffix of the input, either matches at its head (returning the remainder
after the greedy, leftmost match exactly as Python's regex engine would
produce it) or does not match.  `subAll` then realises `re.sub(pat, '', s)`:
scan left to right, delete each non-overlapping match, copy non-matching
characters. -/

def isHexDigitChar (c : Char) : Bool :=
  c.isDigit || ('a' ≤ c && c ≤ 'f') || ('A' ≤ c && c ≤ 'F')

/-- Matcher for `0x[0-9a-fA-F]+` at the head of the suffix: `0x` followed by
one or more hex digits, taken greedily. -/
def matchHex : List Char → Option (List Char)
  | '0' :: 'x' :: c :: rest =>
      if isHexDigitChar c then some (rest.dropWhile isHexDigitChar) else none
  | _ => none

/-- Matcher for `\d{4}-\d{2}-\d{2} \d{2}:\d{2}:\d{2}` at the head of the
suffix (a fixed-shape 19-character timestamp). -/
def matchTimestamp : List Char → Option (List Char)
  | a :: b :: c :: d :: '-' :: e :: f :: '-' :: g :: h :: ' ' ::
      i :: j :: ':' :: k :: l :: ':' :: m :: n :: rest =>
      if [a, b, c, d, e, f, g, h, i, j, k, l, m, n].all Char.isDigit then
        some rest
      else none
  | _ => none

def isWordChar (c : Char) : Bool :=
  c.isAlphanum || c == '_'

/-- Character class `[\w\-\. \\\/]` of the path pattern. -/
def isPathChar (c : Char) : Bool :=
  isWordChar c || c == '-' || c == '.' || c == ' ' || c == '\\' || c == '/'

def isSlash (c : Char) : Bool :=
  c == '\\' || c == '/'

/-- Matcher for the drive-less part `(?:\\|\/)[\w\-\. \\\/]+`: one slash then
one or more path-class characters, taken greedily. -/
def matchPathCore : List Char → Option (List Char)
  | s :: c :: rest =>
      if isSlash s && isPathChar c then some (rest.dropWhile isPathChar)
      else none
  | _ => none

/-- Matcher for `(?:[a-zA-Z]\:)?(?:\\|\/)[\w\-\. \\\/]+`: the optional drive
prefix is tried first (greedy); if the remainder fails, the engine backtracks
and retries without consuming the drive prefix. -/
def matchPath (l : List Char) : Option (List Char) :=
  match l with
  | d :: ':' :: rest =>
      if d.isAlpha then
        match matchPathCore rest with
        | some r => some r
        | none => matchPathCore l
      else matchPathCore l
  | _ => matchPathCore l

/-- Embedding of `re.sub(pat, '', s)` over a suffix matcher: at each position try the
matcher; on a match delete it and continue after it, otherwise keep the
character.  Fuel-driven for totality; every matcher used here consumes at
least one character per match, so fuel `l.length` always suffices. -/
def subAll (m : List Char → Option (List Char)) : Nat → List Char → List Char
  | 0, l => l
  | _ + 1, [] => []
  | fuel + 1, c :: cs =>
    match m (c :: cs) with
    | some rest => subAll m fuel rest
    | none => c :: subAll m fuel cs

def runSub (m : List Char → Option (List Char)) (l : List Char) : List Char :=
  subAll m l.length l

/-- Python `str.isspace` characters stripped by `str.strip()` (ASCII range). -/
def pyIsSpace (c : Char) : Bool :=
  c == ' ' || c == '\t' || c == '\n' || c == '\r' || c == '\x0b' || c == '\x0c'

/-- Python `str.strip()`: drop whitespace at both ends. -/
def pyStripList (l : List Char) : List Char :=
  List.rdropWhile pyIsSpace (List.dropWhile pyIsSpace l)

def pyStrip (s : String) : String :=
  String.mk (pyStripList s.data)

/-- Embedding of `ErrorInterceptorPlugin._normalize_error_message`: remove memory
addresses, then timestamps, then file paths, then strip whitespace. -/
def _normalize_error_message (s : String) : String :=
  String.mk (pyStripList (runSub matchPath (runSub matchTimestamp (runSub matchHex s.data))))

/-- Embedding of `ErrorInterceptorPlugin._similar_messages`: equality of normalized forms. -/
def _similar_messages (m1 m2 : String) : Bool :=
  _normalize_error_message m1 == _normalize_error_message m2

/-- Holds (as `true`) when the matcher matches at no suffix of `l`. -/
def noMatchB (m : List Char → Option (List Char)) : List Char → Bool
  | [] => (m []).isNone
  | c :: cs => (m (c :: cs)).isNone && noMatchB m cs

/-! ## Dedup gate
(`ErrorInterceptorPlugin.__init__` / `_is_duplicate_error` / the
`group_similar_errors` branch of `handle_qgis_error`) -/

/-- The fields of an intercepted error's context record that the duplicate
check reads (`error_context['tag']`, `error_context['message']`). -/
structure ErrorCtx where
  message : String
  tag : String
deriving DecidableEq

/-- Plugin state touched by the dedup path: `self.error_count`,
`self.error_threshold`, `self.recent_errors`, and the settings read by
`handle_qgis_error` / `_is_duplicate_error`. -/
structure PluginState where
  error_count : Nat
  error_threshold : Nat
  recent_errors : List ErrorCtx
  error_history_size : Nat
  group_similar_errors : Bool
deriving DecidableEq

/-- State as set up in `ErrorInterceptorPlugin.__init__` with the default
settings (`error_threshold = 3`, `error_history_size = 50`,
`group_similar_errors = True`). -/
def freshPluginState : PluginState :=
  { error_count := 0
    error_threshold := 3
    recent_errors := []
    error_history_size := 50
    group_similar_errors := true }

/-- Embedding of `ErrorInterceptorPlugin._is_duplicate_error`: scan `recent_errors` for a
record with the same tag and a similar message; on a hit return `True`
without touching the list, otherwise append the new record, evict the oldest
when over `error_history_size`, and return `False`. -/
def _is_duplicate_error (st : PluginState) (e : ErrorCtx) : Bool × List ErrorCtx :=
  if st.recent_errors.any (fun r => r.tag == e.tag && _similar_messages r.message e.message) then
    (true, st.recent_errors)
  else
    let appended := st.recent_errors ++ [e]
    (false, if st.error_history_size < appended.length then appended.drop 1 else appended)

/-- The duplicate-grouping decision inside `handle_qgis_error` (the
`group_similar_errors` block): returns whether the error goes on to be
processed (shown in the chat widget) together with the updated state.  A
duplicate increments `error_count` and is suppressed while
`error_count < error_threshold`. -/
def handle_qgis_error_dedup (st : PluginState) (e : ErrorCtx) : Bool × PluginState :=
  if st.group_similar_errors then
    let dup := _is_duplicate_error st e
    if dup.1 then
      let st' := { st with error_count := st.error_count + 1, recent_errors := dup.2 }
      (decide (¬ st'.error_count < st.error_threshold), st')
    else
      (true, { st with recent_errors := dup.2 })
  else
    (true, st)

/-- Submit a sequence of errors, collecting each `shouldProcess` decision. -/
def submitSeq (st : PluginState) : List ErrorCtx → List Bool × PluginState
  | [] => ([], st)
  | e :: es =>
    let r := handle_qgis_error_dedup st e
    let rs := submitSeq r.2 es
    (r.1 :: rs.1, rs.2)

/-- The error event of end-to-end scenario 1. -/
def scenario1Event : ErrorCtx :=
  { message := "Plugin crashed at 0x7fa23, 2024-01-01 10:00:00", tag := "core" }

/-! ## Conversation state (`FloatingChatWidget`)

The widget keeps `self.history` (a list of role/content dicts),
`self.current_response` (partial text while streaming) and
`self.analysis_in_progress` (the single-flight flag).  The chat display is a
text browser that `update_chat_display` clears and re-renders from the
history; it is modelled as the list of appended display strings.  Markdown
rendering (`Utils.markdown_to_html`) only feeds the display, never the
history, so it is taken as an arbitrary function `md`.  `active_threads`
counts started-but-not-finished `ResponseThread`s (a `ResponseThread.start`
increments it, thread termination, which is what emits `response_finished`,
decrements it). -/

structure Message where
  role : String
  content : String
deriving DecidableEq

structure ChatState where
  history : List Message
  current_response : String
  analysis_in_progress : Bool
  displayed : List String
  active_threads : Nat
deriving DecidableEq

/-- Python `str.capitalize()`. -/
def pyCapitalize (s : String) : String :=
  match s.data with
  | [] => ""
  | c :: cs => String.mk (c.toUpper :: cs.map Char.toLower)

/-- One line of `update_chat_display`'s rendering for a non-system message. -/
def renderLine (md : String → String) (m : Message) : String :=
  if m.role == "user" then "<b>You:</b> " ++ md m.content
  else if m.role == "assistant" then "<b>Geominds:</b> " ++ md m.content
  else "<b>" ++ pyCapitalize m.role ++ ":</b> " ++ md m.content

/-- Embedding of `FloatingChatWidget.update_chat_display`: clear the display and re-render
every message of the history, skipping system messages. -/
def update_chat_display (md : String → String) (h : List Message) : List String :=
  h.filterMap (fun m => if m.role == "system" then none else some (renderLine md m))

/-- Embedding of `FloatingChatWidget.run_model_thread`: rejected while
`analysis_in_progress`; otherwise set the flag and start a `ResponseThread`. -/
def run_model_thread (st : ChatState) : ChatState :=
  if st.analysis_in_progress then st
  else { st with analysis_in_progress := true, active_threads := st.active_threads + 1 }

/-- Whether the last history entry has role `assistant`
(`self.history[-1]["role"] != "assistant"` with the empty-history guard). -/
def lastIsAssistant : List Message → Bool
  | [] => false
  | [m] => m.role == "assistant"
  | _ :: m' :: ms => lastIsAssistant (m' :: ms)

/-- Embedding of `self.history[-1]["content"] = c` (no-op on an empty history, which the
widget never reaches: its history always contains the initial system entry). -/
def setLastContent : List Message → String → List Message
  | [], _ => []
  | [m], c => [⟨m.role, c⟩]
  | m :: m' :: ms, c => m :: setLastContent (m' :: ms) c

/-- Embedding of `FloatingChatWidget.handle_response_chunk`: open a fresh assistant entry
when this is the first chunk of a new reply and the last entry is not an
assistant message, accumulate the chunk, write the accumulated text into the
last history entry, and re-render the display. -/
def handle_response_chunk (md : String → String) (st : ChatState) (chunk : String) : ChatState :=
  let st1 :=
    if st.current_response == "" && !(lastIsAssistant st.history) then
      { st with history := st.history ++ [⟨"assistant", ""⟩] }
    else st
  let newResp := st1.current_response ++ chunk
  let newHist := setLastContent st1.history newResp
  { st1 with
    history := newHist
    current_response := newResp
    displayed := update_chat_display md newHist }

/-- Embedding of `FloatingChatWidget.end_of_response` (slot of `response_finished`). -/
def end_of_response (st : ChatState) : ChatState :=
  { st with current_response := "", analysis_in_progress := false }

/-- Embedding of `FloatingChatWidget.handle_user_input`: strip the input text, do nothing
when blank, otherwise render it, append a user message and start a model
thread. -/
def handle_user_input (md : String → String) (st : ChatState) (inputText : String) : ChatState :=
  let user_text := pyStrip inputText
  if user_text == "" then st
  else
    run_model_thread
      { st with
        displayed := st.displayed ++ ["<b>You:</b> " ++ md user_text]
        history := st.history ++ [⟨"user", user_text⟩] }

/-- Embedding of `FloatingChatWidget.add_error_message`: rejected while
`analysis_in_progress`; otherwise append the formatted error display as a
user message, re-render, drop every existing system message, insert the new
error-analysis system message at index 0 and start the analysis thread.
`error_display` stands for `_format_error_display_as_markdown(error)` and
`sys_prompt` for the fixed error-analysis protocol text. -/
def add_error_message (md : String → String) (st : ChatState)
    (error_display sys_prompt : String) : ChatState :=
  if st.analysis_in_progress then st
  else
    let h1 := st.history ++ [⟨"user", error_display⟩]
    let h2 := h1.filter (fun m => m.role != "system")
    run_model_thread
      { st with
        history := ⟨"system", sys_prompt⟩ :: h2
        displayed := update_chat_display md h1 }

/-- The prefix of `add_error_message` up to its exception handler: when one of
the collaborator calls after the user-message append raises (for example
`int(level)` inside `build_error_prompt`), the `except` block leaves the
history with the appended user message, no system replacement and no thread. -/
def add_error_message_aborted (md : String → String) (st : ChatState)
    (error_display : String) : ChatState :=
  if st.analysis_in_progress then st
  else
    let h1 := st.history ++ [⟨"user", error_display⟩]
    { st with history := h1, displayed := update_chat_display md h1 }

/-- External events driving the widget: user input, an intercepted error
(completing normally or aborted by a collaborator exception), a streamed
chunk (`response_chunk` signal) and stream termination (`response_finished`
signal, emitted when the worker thread ends). -/
inductive ChatEvent where
  | userInput (text : String)
  | errorMsg (display sysPrompt : String)
  | errorAborted (display : String)
  | chunk (text : String)
  | finished
deriving DecidableEq

def chatStep (md : String → String) (st : ChatState) : ChatEvent → ChatState
  | .userInput t => handle_user_input md st t
  | .errorMsg d p => add_error_message md st d p
  | .errorAborted d => add_error_message_aborted md st d
  | .chunk c => handle_response_chunk md st c
  | .finished => { end_of_response st with active_threads := st.active_threads - 1 }

/-- The initial system message installed in `FloatingChatWidget.__init__`. -/
def initGreeting : String :=
  "You are Geominds, a QGIS assistant. You can have normal conversations or analyze QGIS errors. When analyzing errors, provide cause, resolution steps, and prevention tips."

/-- Widget state right after `FloatingChatWidget.__init__`. -/
def initChatState : ChatState :=
  { history := [⟨"system", initGreeting⟩]
    current_response := ""
    analysis_in_progress := false
    displayed := []
    active_threads := 0 }

def runChatTrace (md : String → String) (evts : List ChatEvent) : ChatState :=
  evts.foldl (chatStep md) initChatState

/-! ## Backend adapters (`ResponseThread`)

`ResponseThread.run` dispatches on `settings["api_type"]` and each
`process_*` method turns its provider's wire stream into emissions of the
Qt signals `response_chunk`, `response_ready` and `response_finished`.
Network behaviour (connection outcome, decoded stream elements) is an
explicit parameter; JSON decoding of individual stream lines is modelled by
pre-parsed line constructors, with a constructor for undecodable/blank
lines.  `run`'s own `try/except/finally` converts any escaped exception into
a `response_ready` emission and always emits a final `response_finished`. -/

inductive Ev where
  | chunk (text : String)
  | ready (text : String)
  | finished
deriving DecidableEq

def Ev.isReady : Ev → Bool
  | .ready _ => true
  | _ => false

/-- One NDJSON line of the Ollama response: a decoded object with its
`response` and `done` fields, or a blank/undecodable line. -/
inductive OllamaLine where
  | item (response : String) (done : Bool)
  | bad
deriving DecidableEq

/-- Outcome of `requests.post(f'.../api/generate', ...)` together with
`raise_for_status()`: either an exception (connection error or HTTP error
status) or a stream of lines. -/
inductive OllamaOutcome where
  | raised (msg : String)
  | ok (lines : List OllamaLine)
deriving DecidableEq

/-- The streaming loop of `process_ollama_request`: emit a chunk per line
with non-empty `response`; on `done` emit `response_finished` and break; when
the stream closes without `done`, the for-else emits `response_finished`. -/
def ollamaLoop : List OllamaLine → List Ev
  | [] => [.finished]
  | .bad :: rest => ollamaLoop rest
  | .item resp d :: rest =>
      (if resp == "" then [] else [.chunk resp]) ++
        (if d then [.finished] else ollamaLoop rest)

/-- Embedding of `ResponseThread.process_ollama_request` (signal emissions). -/
def process_ollama_request (net : OllamaOutcome) : List Ev :=
  match net with
  | .raised msg => [.ready ("API Error: " ++ msg), .finished]
  | .ok lines => ollamaLoop lines

/-- A decoded `data: ` line of the OpenAI SSE stream: `errMsg` is the
extracted message when the object carries a truthy `error` field, `content`
is `choices[0].delta.content` when present. -/
structure OpenAIDelta where
  errMsg : Option String
  content : Option String
deriving DecidableEq

/-- One line of the OpenAI response body: a decoded `data: ` JSON object, the
`data: [DONE]` marker, or a line that is skipped (blank, no `data: ` prefix,
or JSON decode error). -/
inductive OpenAILine where
  | obj (d : OpenAIDelta)
  | doneMarker
  | skipped
deriving DecidableEq

/-- Outcome of `requests.post(api_url, ...)` for the OpenAI backend:
a `RequestException`, another exception, or a response with status code,
body text and stream lines. -/
inductive OpenAIOutcome where
  | raisedRequest (msg : String)
  | raisedOther (msg : String)
  | ok (status : Nat) (body : String) (lines : List OpenAILine)
deriving DecidableEq

/-- The streaming loop of `process_openai_request`: a truthy `error` field
emits `response_ready` and returns out of the method (run's `finally` adds
the terminal `response_finished`); otherwise non-empty delta content is
emitted chunk by chunk, and the post-loop `response_finished` fires when the
stream ends. -/
def openaiLoop : List OpenAILine → List Ev
  | [] => [.finished]
  | .doneMarker :: rest => openaiLoop rest
  | .skipped :: rest => openaiLoop rest
  | .obj d :: rest =>
      match d.errMsg with
      | some m => [.ready ("API Error: " ++ m)]
      | none =>
          (match d.content with
           | some c => if c == "" then [] else [.chunk c]
           | none => []) ++ openaiLoop rest

/-- Embedding of `ResponseThread.process_openai_request` (signal emissions, including the
method's own `finally: self.response_finished.emit()`). -/
def process_openai_request (net : OpenAIOutcome) : List Ev :=
  (match net with
   | .raisedRequest msg => [.ready ("Request error: " ++ msg)]
   | .raisedOther msg => [.ready ("Unexpected error: " ++ msg)]
   | .ok status body lines =>
       if status ≠ 200 then
         [.ready ("API Error: " ++ toString status ++ " - " ++ body)]
       else openaiLoop lines) ++ [.finished]

/-- Outcome of the Azure `client.complete(stream=True, ...)` call: an
exception (with the message extracted by the handler), or the stream of
per-update `delta.content` values (`none` when an update has no choices or a
null content). -/
inductive AzureOutcome where
  | raised (msg : String)
  | ok (updates : List (Option String))
deriving DecidableEq

/-- Settings fields read by `ResponseThread.run` and
`process_azure_openai_request`. -/
structure Settings where
  api_type : String
  azure_openai_endpoint : String
  azure_openai_deployment : String
  azure_openai_api_version : String
  azure_openai_api_key : String
deriving DecidableEq

/-- Python `s.rstrip('/')`. -/
def pyRstripSlash (s : String) : String :=
  String.mk (List.rdropWhile (fun c => c == '/') s.data)

def azureChunks : List (Option String) → List Ev
  | [] => []
  | none :: rest => azureChunks rest
  | some c :: rest => (if c == "" then [] else [.chunk c]) ++ azureChunks rest

/-- Embedding of `ResponseThread.process_azure_openai_request` (signal emissions): an
empty endpoint (after stripping trailing slashes), deployment or API key
makes the method emit the incomplete-configuration notice and return without
any network call; otherwise the authenticated streaming call is made and its
updates are emitted chunk by chunk. -/
def process_azure_openai_request (s : Settings) (net : AzureOutcome) : List Ev :=
  let azure_endpoint := pyRstripSlash s.azure_openai_endpoint
  if azure_endpoint == "" || s.azure_openai_deployment == "" ||
      s.azure_openai_api_key == "" then
    [.ready "Azure OpenAI configuration is incomplete."]
  else
    match net with
    | .raised msg => [.ready ("Error: " ++ msg), .finished]
    | .ok updates => azureChunks updates ++ [.finished]

/-- Network behaviour offered to a run, per backend. -/
structure Net where
  ollama : OllamaOutcome
  openai : OpenAIOutcome
  azure : AzureOutcome

/-- Embedding of `ResponseThread.run`: dispatch on `api_type`; unsupported types emit a
`response_ready` notice; the `finally` block always emits a final
`response_finished`. -/
def ResponseThread_run (s : Settings) (net : Net) : List Ev :=
  (if s.api_type == "ollama" then process_ollama_request net.ollama
   else if s.api_type == "openai" then process_openai_request net.openai
   else if s.api_type == "azure_openai" then process_azure_openai_request s net.azure
   else [.ready "Unsupported API type."]) ++ [.finished]

/-- Delivery of the thread's signal emissions to the widget.
`run_model_thread` connects `response_chunk` to `handle_response_chunk` and
`response_finished` to `end_of_response`; the line connecting
`response_ready` to `display_full_response` is commented out in the source,
so `ready` emissions reach no slot and are dropped. -/
def deliver (md : String → String) (st : ChatState) : List Ev → ChatState
  | [] => st
  | .chunk c :: rest => deliver md (handle_response_chunk md st c) rest
  | .ready _ :: rest => deliver md st rest
  | .finished :: rest => deliver md (end_of_response st) rest

/-! ## Derived notions and concrete scenario data used by the theorems -/

/-- In-order concatenation of a list of strings. -/
def concatAll : List String → String
  | [] => ""
  | s :: ss => s ++ concatAll ss

def processChunks (md : String → String) (st : ChatState) (chunks : List String) : ChatState :=
  chunks.foldl (handle_response_chunk md) st

/-- Single-flight invariant: a worker thread is live exactly while
`analysis_in_progress` is set, and there is never more than one. -/
def flightInv (st : ChatState) : Prop :=
  st.active_threads = if st.analysis_in_progress then 1 else 0

def roleList (h : List Message) : List String :=
  h.map Message.role

/-- No message outside head position has role `system`. -/
def noSysTail (h : List Message) : Bool :=
  ((roleList h).drop 1).all (fun r => r != "system")

/-- A fresh error event used to exercise the first-occurrence path. -/
def firstSeenEvent : ErrorCtx :=
  { message := "boom", tag := "net" }

/-- Concrete failing backend scenario: Ollama backend, connection refused. -/
def connRefusedSettings : Settings :=
  { api_type := "ollama"
    azure_openai_endpoint := ""
    azure_openai_deployment := ""
    azure_openai_api_version := ""
    azure_openai_api_key := "" }

def connRefusedNet : Net :=
  { ollama := .raised "Connection refused"
    openai := .ok 200 "" []
    azure := .ok [] }

/-- Azure settings with every field set except the API key. -/
def azureNoKeySettings : Settings :=
  { api_type := "azure_openai"
    azure_openai_endpoint := "https://example-endpoint/"
    azure_openai_deployment := "Meta-Llama-3-8B-Instruct"
    azure_openai_api_version := "2024-05-01-preview"
    azure_openai_api_key := "" }

def someNet : Net :=
  { ollama := .ok []
    openai := .ok 200 "" []
    azure := .ok [some "hello"] }

def someOtherNet : Net :=
  { ollama := .raised "down"
    openai := .raisedRequest "down"
    azure := .raised "down" }

/-- A widget state with one finished generation: the user said `hi` and the
assistant turn `ABC` has been closed by `response_finished`. -/
def closedTurnState : ChatState :=
  end_of_response
    (processChunks (fun s => s)
      { history := [⟨"system", initGreeting⟩, ⟨"user", "hi"⟩]
        current_response := ""
        analysis_in_progress := true
        displayed := []
        active_threads := 1 }
      ["A", "B", "C"])

/-! ## Theorems -/

theorem subAll_of_noMatch (m : List Char → Option (List Char)) :
    ∀ (l : List Char) (fuel : Nat), noMatchB m l = true → subAll m fuel l = l := by
  intro l
  induction l with
  | nil =>
      intro fuel _
      cases fuel <;> rfl
  | cons c cs ih =>
      intro fuel hnm
      cases fuel with
      | zero => rfl
      | succ f =>
          have h1 : (m (c :: cs)).isNone = true := by
            have := hnm
            simp [noMatchB, Bool.and_eq_true] at this
            exact Option.isNone_iff_eq_none.mpr this.1
          have h2 : noMatchB m cs = true := by
            have := hnm
            simp [noMatchB, Bool.and_eq_true] at this
            exact this.2
          have hmn : m (c :: cs) = none := Option.isNone_iff_eq_none.mp h1
          simp [subAll, hmn, ih f h2]

theorem pyStripList_idempotent (l : List Char) :
    pyStripList (pyStripList l) = pyStripList l := by
  unfold pyStripList
  have hpre : List.dropWhile pyIsSpace
      (List.rdropWhile pyIsSpace (List.dropWhile pyIsSpace l)) =
      List.rdropWhile pyIsSpace (List.dropWhile pyIsSpace l) := by
    rcases hpfx : List.rdropWhile pyIsSpace (List.dropWhile pyIsSpace l) with _ | ⟨c, cs⟩
    · simp
    · have hprefix := List.rdropWhile_prefix pyIsSpace (List.dropWhile pyIsSpace l)
      rw [hpfx] at hprefix
      rcases hprefix with ⟨t, ht⟩
      have hself : List.dropWhile pyIsSpace (List.dropWhile pyIsSpace l) =
          List.dropWhile pyIsSpace l := List.dropWhile_idempotent _ _
      rw [← ht] at hself
      have h0 : 0 < ((c :: cs) ++ t).length := by simp
      have hc : ¬ pyIsSpace (((c :: cs) ++ t).get ⟨0, h0⟩) = true :=
        List.dropWhile_eq_self_iff.mp hself h0
      have hcf : pyIsSpace c = false := by
        cases hcc : pyIsSpace c
        · rfl
        · exact absurd (by simpa using hcc) hc
      simp [List.dropWhile_cons, hcf]
  rw [hpre, List.rdropWhile_idempotent]

theorem normalize_of_fixed (u : String)
    (h1 : noMatchB matchHex u.data = true)
    (h2 : noMatchB matchTimestamp u.data = true)
    (h3 : noMatchB matchPath u.data = true)
    (h4 : pyStripList u.data = u.data) :
    _normalize_error_message u = u := by
  unfold _normalize_error_message
  simp only [runSub]
  rw [subAll_of_noMatch matchHex _ _ h1]
  rw [subAll_of_noMatch matchTimestamp _ _ h2]
  rw [subAll_of_noMatch matchPath _ _ h3]
  rw [h4]

theorem lastIsAssistant_append (h : List Message) (m : Message) :
    lastIsAssistant (h ++ [m]) = (m.role == "assistant") := by
  induction h with
  | nil => rfl
  | cons x h' ih =>
      cases h' with
      | nil => rfl
      | cons y ys =>
          simpa [List.cons_append, lastIsAssistant] using ih

theorem setLastContent_append (h : List Message) (m : Message) (c : String) :
    setLastContent (h ++ [m]) c = h ++ [⟨m.role, c⟩] := by
  induction h with
  | nil => rfl
  | cons x h' ih =>
      cases h' with
      | nil => rfl
      | cons y ys =>
          simpa [List.cons_append, setLastContent] using ih

theorem processChunks_open (md : String → String) :
    ∀ (chunks : List String) (h : List Message) (cur : String) (st : ChatState),
      st.history = h ++ [⟨"assistant", cur⟩] →
      st.current_response = cur →
      (processChunks md st chunks).history = h ++ [⟨"assistant", cur ++ concatAll chunks⟩] ∧
        (processChunks md st chunks).current_response = cur ++ concatAll chunks := by
  intro chunks
  induction chunks with
  | nil =>
      intro h cur st hh hc
      simp [processChunks, concatAll, String.append_empty, hh, hc]
  | cons c cs ih =>
      intro h cur st hh hc
      have hstep : handle_response_chunk md st c =
          { st with
            history := h ++ [⟨"assistant", cur ++ c⟩]
            current_response := cur ++ c
            displayed := update_chat_display md (h ++ [⟨"assistant", cur ++ c⟩]) } := by
        unfold handle_response_chunk
        rw [hh, hc, lastIsAssistant_append]
        simp [setLastContent_append, hh, hc]
      have hfold : processChunks md st (c :: cs) =
          processChunks md (handle_response_chunk md st c) cs := rfl
      rw [hfold, hstep]
      have := ih h (cur ++ c)
        { st with
          history := h ++ [⟨"assistant", cur ++ c⟩]
          current_response := cur ++ c
          displayed := update_chat_display md (h ++ [⟨"assistant", cur ++ c⟩]) }
        rfl rfl
      simpa [concatAll, String.append_assoc] using this

theorem processChunks_fresh (md : String → String) (st : ChatState)
    (c : String) (cs : List String)
    (hcur : st.current_response = "")
    (hlast : lastIsAssistant st.history = false) :
    (processChunks md st (c :: cs)).history
        = st.history ++ [⟨"assistant", concatAll (c :: cs)⟩] ∧
      (processChunks md st (c :: cs)).current_response = concatAll (c :: cs) := by
  have hstep : handle_response_chunk md st c =
      { st with
        history := st.history ++ [⟨"assistant", c⟩]
        current_response := c
        displayed := update_chat_display md (st.history ++ [⟨"assistant", c⟩]) } := by
    unfold handle_response_chunk
    rw [hcur, hlast]
    simp [setLastContent_append, String.empty_append]
  have hfold : processChunks md st (c :: cs) =
      processChunks md (handle_response_chunk md st c) cs := rfl
  rw [hfold, hstep]
  have := processChunks_open md cs st.history c
    { st with
      history := st.history ++ [⟨"assistant", c⟩]
      current_response := c
      displayed := update_chat_display md (st.history ++ [⟨"assistant", c⟩]) }
    rfl rfl
  simpa [concatAll] using this

theorem run_model_thread_history (st : ChatState) :
    (run_model_thread st).history = st.history := by
  unfold run_model_thread
  split <;> rfl

theorem flightInv_run (st : ChatState) (h : flightInv st) :
    flightInv (run_model_thread st) := by
  unfold flightInv at h ⊢
  unfold run_model_thread
  cases hp : st.analysis_in_progress <;> rw [hp] at h <;> simp at h <;> simp [hp, h]

theorem flightInv_step (md : String → String) (st : ChatState) (e : ChatEvent)
    (h : flightInv st) : flightInv (chatStep md st e) := by
  cases e with
  | userInput t =>
      show flightInv (handle_user_input md st t)
      unfold handle_user_input
      dsimp only
      split
      · exact h
      · exact flightInv_run _ h
  | errorMsg d p =>
      show flightInv (add_error_message md st d p)
      unfold add_error_message
      dsimp only
      split
      · exact h
      · exact flightInv_run _ h
  | errorAborted d =>
      show flightInv (add_error_message_aborted md st d)
      unfold add_error_message_aborted
      dsimp only
      split
      · exact h
      · exact h
  | chunk c =>
      show flightInv (handle_response_chunk md st c)
      unfold handle_response_chunk
      dsimp only
      split
      · exact h
      · exact h
  | finished =>
      show flightInv { end_of_response st with active_threads := st.active_threads - 1 }
      unfold flightInv at h ⊢
      cases hp : st.analysis_in_progress <;> rw [hp] at h <;> simp at h <;>
        simp [end_of_response, h]

theorem flightInv_trace (md : String → String) (evts : List ChatEvent) :
    flightInv (runChatTrace md evts) := by
  have key : ∀ (l : List ChatEvent) (st : ChatState), flightInv st →
      flightInv (l.foldl (chatStep md) st) := by
    intro l
    induction l with
    | nil => intro st h; exact h
    | cons e l' ih =>
        intro st h
        exact ih _ (flightInv_step md st e h)
  exact key evts initChatState rfl

theorem roleList_setLastContent (h : List Message) (c : String) :
    roleList (setLastContent h c) = roleList h := by
  induction h with
  | nil => rfl
  | cons x h' ih =>
      cases h' with
      | nil => rfl
      | cons y ys =>
          simp only [setLastContent, roleList, List.map_cons] at ih ⊢
          rw [ih]

theorem noSysTail_append (h : List Message) (m : Message)
    (hh : noSysTail h = true) (hm : (m.role != "system") = true) :
    noSysTail (h ++ [m]) = true := by
  unfold noSysTail roleList at hh ⊢
  cases h with
  | nil => simp [hm]
  | cons x h' =>
      simp only [List.map_cons, List.drop_succ_cons, List.drop_zero] at hh
      simp [List.all_append, hh, hm]

theorem noSys_filter (h : List Message) :
    ((h.filter (fun m => m.role != "system")).map Message.role).all
        (fun r => r != "system") = true := by
  simp only [List.all_eq_true, List.mem_map]
  rintro r ⟨m, hm, rfl⟩
  exact (List.mem_filter.mp hm).2

theorem noSysTail_step (md : String → String) (st : ChatState) (e : ChatEvent)
    (h : noSysTail st.history = true) : noSysTail (chatStep md st e).history = true := by
  have key : ∀ (l : List Message) (s : String), noSysTail l = true →
      noSysTail (setLastContent l s) = true := by
    intro l s hl
    unfold noSysTail
    rw [roleList_setLastContent]
    exact hl
  cases e with
  | userInput t =>
      show noSysTail (handle_user_input md st t).history = true
      unfold handle_user_input
      dsimp only
      split
      · exact h
      · rw [run_model_thread_history]
        exact noSysTail_append _ _ h (show ("user" != "system") = true by decide)
  | errorMsg d p =>
      show noSysTail (add_error_message md st d p).history = true
      unfold add_error_message
      dsimp only
      split
      · exact h
      · rw [run_model_thread_history]
        have hf := noSys_filter (st.history ++ [⟨"user", d⟩])
        simpa [noSysTail, roleList, List.drop_succ_cons, List.drop_zero] using hf
  | errorAborted d =>
      show noSysTail (add_error_message_aborted md st d).history = true
      unfold add_error_message_aborted
      dsimp only
      split
      · exact h
      · exact noSysTail_append _ _ h (show ("user" != "system") = true by decide)
  | chunk c =>
      show noSysTail (handle_response_chunk md st c).history = true
      unfold handle_response_chunk
      dsimp only
      split
      · exact key _ _ (noSysTail_append _ _ h (show ("assistant" != "system") = true by decide))
      · exact key _ _ h
  | finished => exact h

/-- C1 counterexample: with grouping enabled and threshold 3, submitting the
scenario-1 error three times to a fresh dedup gate does NOT yield the claimed
`false, false, true` sequence of shouldProcess decisions. -/
theorem dedup_threshold_counterexample :
    (submitSeq freshPluginState [scenario1Event, scenario1Event, scenario1Event]).1
      ≠ [false, false, true] := by decide

/-- C1 amended: with grouping enabled and threshold 3, submitting the
scenario-1 error three times to a fresh dedup gate yields shouldProcess
decisions `true, false, false`: the first occurrence is processed (it is not
yet a duplicate) and the second and third are suppressed because the global
`error_count` (1, then 2) stays below the threshold 3. -/
theorem dedup_threshold_sequence :
    (submitSeq freshPluginState [scenario1Event, scenario1Event, scenario1Event]).1
      = [true, false, false] := by decide

/-- C5 counterexample: the normalizer is not idempotent.  For
`"00xAAx12"` the first pass deletes the hex token `0xAA`, gluing `0` and
`x12` into the fresh hex token `0x12`, which a second pass deletes. -/
theorem normalize_idempotent_counterexample :
    _normalize_error_message (_normalize_error_message "00xAAx12")
      ≠ _normalize_error_message "00xAAx12" := by decide

/-- C5 amended: the normalizer is idempotent on every string whose normalized
form contains no residual hex-address, timestamp or path token (deleting a
match can splice the surrounding characters into a new match, and only then
does a second pass differ). -/
theorem normalize_idempotent_amended (s : String)
    (h1 : noMatchB matchHex (_normalize_error_message s).data = true)
    (h2 : noMatchB matchTimestamp (_normalize_error_message s).data = true)
    (h3 : noMatchB matchPath (_normalize_error_message s).data = true) :
    _normalize_error_message (_normalize_error_message s) = _normalize_error_message s := by
  apply normalize_of_fixed
  · exact h1
  · exact h2
  · exact h3
  · exact pyStripList_idempotent
      (runSub matchPath (runSub matchTimestamp (runSub matchHex s.data)))

theorem normalize_idempotent_amended_witness :
    _normalize_error_message (_normalize_error_message "boom 0x1f at 2024-01-01 10:00:00")
      = _normalize_error_message "boom 0x1f at 2024-01-01 10:00:00" :=
  normalize_idempotent_amended "boom 0x1f at 2024-01-01 10:00:00"
    (by decide) (by decide) (by decide)

/-- C7: when no stored record matches the incoming (tag, message) pair, the
dedup decision processes the error (returns true), appends the new record,
evicts the oldest exactly when the capacity is exceeded, keeps the store
within the configured capacity, and leaves the new record as the newest
entry (capacity at least 1, as the settings schema requires). -/
theorem first_occurrence_processed (st : PluginState) (e : ErrorCtx)
    (hgroup : st.group_similar_errors = true)
    (hmiss : st.recent_errors.any
        (fun r => r.tag == e.tag && _similar_messages r.message e.message) = false)
    (hcap : st.recent_errors.length ≤ st.error_history_size)
    (hcap1 : 1 ≤ st.error_history_size) :
    (handle_qgis_error_dedup st e).1 = true ∧
      (handle_qgis_error_dedup st e).2.recent_errors =
        (if st.error_history_size < st.recent_errors.length + 1
         then (st.recent_errors ++ [e]).drop 1
         else st.recent_errors ++ [e]) ∧
      (handle_qgis_error_dedup st e).2.recent_errors.length ≤ st.error_history_size ∧
      (handle_qgis_error_dedup st e).2.recent_errors.getLast? = some e := by
  have hmain : handle_qgis_error_dedup st e =
      (true, { st with recent_errors :=
        if st.error_history_size < (st.recent_errors ++ [e]).length
        then (st.recent_errors ++ [e]).drop 1
        else st.recent_errors ++ [e] }) := by
    unfold handle_qgis_error_dedup _is_duplicate_error
    rw [hgroup, hmiss]
    simp
  rw [hmain]
  refine ⟨rfl, by simp, ?_, ?_⟩
  · show (if st.error_history_size < (st.recent_errors ++ [e]).length
        then (st.recent_errors ++ [e]).drop 1
        else st.recent_errors ++ [e]).length ≤ st.error_history_size
    by_cases hover : st.error_history_size < (st.recent_errors ++ [e]).length
    · rw [if_pos hover]
      simp only [List.length_drop, List.length_append, List.length_singleton] at hover ⊢
      omega
    · rw [if_neg hover]
      simp only [List.length_append, List.length_singleton] at hover ⊢
      omega
  · show (if st.error_history_size < (st.recent_errors ++ [e]).length
        then (st.recent_errors ++ [e]).drop 1
        else st.recent_errors ++ [e]).getLast? = some e
    by_cases hover : st.error_history_size < (st.recent_errors ++ [e]).length
    · rw [if_pos hover]
      cases hrec : st.recent_errors with
      | nil =>
          exfalso
          rw [hrec] at hover
          simp at hover
          omega
      | cons x xs =>
          simp [List.getLast?_concat]
    · rw [if_neg hover]
      exact List.getLast?_concat _

theorem first_occurrence_processed_witness :
    (handle_qgis_error_dedup freshPluginState firstSeenEvent).1 = true ∧
      (handle_qgis_error_dedup freshPluginState firstSeenEvent).2.recent_errors =
        (if freshPluginState.error_history_size < freshPluginState.recent_errors.length + 1
         then (freshPluginState.recent_errors ++ [firstSeenEvent]).drop 1
         else freshPluginState.recent_errors ++ [firstSeenEvent]) ∧
      (handle_qgis_error_dedup freshPluginState firstSeenEvent).2.recent_errors.length
          ≤ freshPluginState.error_history_size ∧
      (handle_qgis_error_dedup freshPluginState firstSeenEvent).2.recent_errors.getLast?
          = some firstSeenEvent :=
  first_occurrence_processed freshPluginState firstSeenEvent rfl (by decide) (by decide)
    (by decide)

theorem noSysTail_trace (md : String → String) (evts : List ChatEvent) :
    noSysTail (runChatTrace md evts).history = true := by
  have key : ∀ (l : List ChatEvent) (st : ChatState), noSysTail st.history = true →
      noSysTail (l.foldl (chatStep md) st).history = true := by
    intro l
    induction l with
    | nil => intro st h; exact h
    | cons e l' ih =>
        intro st h
        exact ih _ (noSysTail_step md st e h)
  exact key evts initChatState rfl

theorem deliver_drop_ready (md : String → String) :
    ∀ (evs : List Ev) (st : ChatState),
      deliver md st evs = deliver md st (evs.filter (fun e => ! e.isReady)) := by
  intro evs
  induction evs with
  | nil => intro st; rfl
  | cons e rest ih =>
      intro st
      cases e with
      | chunk c =>
          rw [List.filter_cons]
          simp only [Ev.isReady, Bool.not_false, if_true]
          show deliver md (handle_response_chunk md st c) rest
              = deliver md (handle_response_chunk md st c) (rest.filter (fun e => ! e.isReady))
          exact ih _
      | ready s =>
          rw [List.filter_cons]
          simp only [Ev.isReady, Bool.not_true, if_false]
          show deliver md st rest = deliver md st (rest.filter (fun e => ! e.isReady))
          exact ih _
      | finished =>
          rw [List.filter_cons]
          simp only [Ev.isReady, Bool.not_false, if_true]
          show deliver md (end_of_response st) rest
              = deliver md (end_of_response st) (rest.filter (fun e => ! e.isReady))
          exact ih _

/-- C2: a start request while a generation is already streaming is rejected
synchronously and is a pure no-op (the state — history, display, flag and
thread count — is returned unchanged), and along every event trace the widget
has exactly one live worker thread while `analysis_in_progress` is set and
none otherwise, so at most one streaming session ever exists. -/
theorem single_flight :
    (∀ st : ChatState, st.analysis_in_progress = true → run_model_thread st = st) ∧
    (∀ (md : String → String) (evts : List ChatEvent),
        (runChatTrace md evts).active_threads =
          if (runChatTrace md evts).analysis_in_progress then 1 else 0) := by
  constructor
  · intro st h
    unfold run_model_thread
    rw [h]
    simp
  · intro md evts
    exact flightInv_trace md evts

theorem single_flight_witness :
    run_model_thread ⟨[⟨"user", "hi"⟩], "", true, [], 1⟩ = ⟨[⟨"user", "hi"⟩], "", true, [], 1⟩ :=
  single_flight.1 ⟨[⟨"user", "hi"⟩], "", true, [], 1⟩ rfl

/-- C3: for chunks delivered in emission order to a single fresh assistant
turn, the turn's final content is the in-order concatenation of the chunk
texts: the history gains exactly one assistant message holding the
concatenation, unchanged by the closing `response_finished` delivery. -/
theorem chunk_order_preserved (md : String → String) (st : ChatState)
    (c : String) (cs : List String)
    (hcur : st.current_response = "")
    (hlast : lastIsAssistant st.history = false) :
    (end_of_response (processChunks md st (c :: cs))).history
        = st.history ++ [⟨"assistant", concatAll (c :: cs)⟩] ∧
      (processChunks md st (c :: cs)).current_response = concatAll (c :: cs) := by
  have h := processChunks_fresh md st c cs hcur hlast
  exact ⟨h.1, h.2⟩

theorem chunk_order_preserved_witness :
    (end_of_response (processChunks (fun s => s) initChatState ["A", "B", "C"])).history
        = initChatState.history ++ [⟨"assistant", "ABC"⟩] := by
  have h := chunk_order_preserved (fun s => s) initChatState "A" ["B", "C"] rfl (by decide)
  rw [h.1]
  rfl

/-- C6 counterexample: after a generation ended (`response_finished` closed
the assistant message with content "ABC"), a chunk "X" of a later generation
arriving without an intervening message does not leave the closed message
intact: the code reuses the last assistant entry and overwrites its content
with "X". -/
theorem closed_turn_counterexample :
    closedTurnState.history.getLast? = some ⟨"assistant", "ABC"⟩ ∧
      (handle_response_chunk (fun s => s) closedTurnState "X").history.getLast?
        = some ⟨"assistant", "X"⟩ := by decide

/-- C6 amended: once a generation ends, the closed assistant message is never
modified by a later generation's chunks provided some message with a
non-assistant role follows it in the history first — which every start path
of the program guarantees by appending the user (or error-display) message
before streaming begins. -/
theorem closed_turn_amended (md : String → String) (st : ChatState)
    (h : List Message) (t : String) (m : Message) (chunks : List String)
    (hm : (m.role == "assistant") = false)
    (hh : st.history = h ++ [⟨"assistant", t⟩, m])
    (hcur : st.current_response = "") :
    ∃ tail, (processChunks md st chunks).history = h ++ ⟨"assistant", t⟩ :: m :: tail := by
  cases chunks with
  | nil =>
      exact ⟨[], by simpa using hh⟩
  | cons c cs =>
      have hsplit : h ++ [(⟨"assistant", t⟩ : Message), m]
          = (h ++ [⟨"assistant", t⟩]) ++ [m] := by simp
      have hlast : lastIsAssistant st.history = false := by
        rw [hh, hsplit, lastIsAssistant_append]
        exact hm
      have hres := processChunks_fresh md st c cs hcur hlast
      refine ⟨[⟨"assistant", concatAll (c :: cs)⟩], ?_⟩
      rw [hres.1, hh]
      simp

theorem closed_turn_amended_witness :
    ∃ tail, (processChunks (fun s => s)
        ⟨[⟨"assistant", "ABC"⟩, ⟨"user", "next"⟩], "", true, [], 1⟩ ["X"]).history
      = [] ++ ⟨"assistant", "ABC"⟩ :: ⟨"user", "next"⟩ :: tail :=
  closed_turn_amended (fun s => s) ⟨[⟨"assistant", "ABC"⟩, ⟨"user", "next"⟩], "", true, [], 1⟩
    [] "ABC" ⟨"user", "next"⟩ ["X"] (by decide) rfl rfl

/-- C8: along every event trace every message outside index 0 has a
non-system role (so the conversation holds at most one system message,
necessarily at its head), and a processed error submission replaces the
system message: the new history is the new system message at index 0 followed
by messages none of which has role system. -/
theorem system_message_unique_head :
    (∀ (md : String → String) (evts : List ChatEvent),
        noSysTail (runChatTrace md evts).history = true) ∧
    (∀ (md : String → String) (st : ChatState) (d p : String),
        st.analysis_in_progress = false →
        ∃ rest, (add_error_message md st d p).history = ⟨"system", p⟩ :: rest ∧
          (roleList rest).all (fun r => r != "system") = true) := by
  constructor
  · exact noSysTail_trace
  · intro md st d p hidle
    refine ⟨(st.history ++ [({ role := "user", content := d } : Message)]).filter
      (fun m => m.role != "system"), ?_, ?_⟩
    · unfold add_error_message
      rw [hidle]
      simp only [Bool.false_eq_true, if_false]
      rw [run_model_thread_history]
    · have hf := noSys_filter (st.history ++ [⟨"user", d⟩])
      simpa [roleList] using hf

theorem system_message_unique_head_witness :
    ∃ rest, (add_error_message (fun s => s) initChatState "E" "P").history
        = ⟨"system", "P"⟩ :: rest ∧ (roleList rest).all (fun r => r != "system") = true :=
  system_message_unique_head.2 (fun s => s) initChatState "E" "P" rfl

/-- C10: submitting user input that is empty or consists only of whitespace
is a no-op: the whole widget state (history, display, single-flight flag,
worker threads) is returned unchanged and no generation is started. -/
theorem blank_input_noop (md : String → String) (st : ChatState) (t : String)
    (hws : t.data.all pyIsSpace = true) :
    handle_user_input md st t = st := by
  have hstrip : pyStrip t = "" := by
    unfold pyStrip pyStripList
    have hd : List.dropWhile pyIsSpace t.data = [] :=
      List.dropWhile_eq_nil_iff.mpr (fun x hx => List.all_eq_true.mp hws x hx)
    rw [hd, List.rdropWhile_nil]
  unfold handle_user_input
  dsimp only
  rw [hstrip]
  simp

theorem blank_input_noop_witness :
    handle_user_input (fun s => s) ⟨[⟨"system", "S"⟩], "", false, [], 0⟩ "   " =
      ⟨[⟨"system", "S"⟩], "", false, [], 0⟩ :=
  blank_input_noop (fun s => s) ⟨[⟨"system", "S"⟩], "", false, [], 0⟩ "   " (by decide)

set_option maxRecDepth 4000 in
/-- C4 counterexample: on an Ollama connection failure the thread emits the
plain-text failure notice on `response_ready`, but — the widget never
connects that signal — delivering the run's emissions leaves the conversation
history unchanged: no notice is appended. -/
theorem failure_notice_counterexample :
    Ev.ready "API Error: Connection refused"
        ∈ ResponseThread_run connRefusedSettings connRefusedNet ∧
      (deliver (fun s => s) initChatState
          (ResponseThread_run connRefusedSettings connRefusedNet)).history
        = initChatState.history := by decide

/-- C4 amended: adapter failures are converted to plain-text notices emitted
on the thread's `response_ready` signal and never escape as exceptions (every
run's emission sequence terminates with the `response_finished` signal), but
because the widget leaves `response_ready` unconnected, `ready` events have
no effect on delivery: the conversation is exactly what the non-ready events
produce, so the failure notice is never appended to it. -/
theorem failure_notice_amended :
    (∀ (md : String → String) (st : ChatState) (evs : List Ev),
        deliver md st evs = deliver md st (evs.filter (fun e => ! e.isReady))) ∧
    (∀ (s : Settings) (net : Net),
        (ResponseThread_run s net).getLast? = some .finished) := by
  constructor
  · intro md st evs
    exact deliver_drop_ready md evs st
  · intro s net
    exact List.getLast?_concat _

/-- C9: with the backend set to Azure OpenAI, if any of the endpoint,
deployment or API-key settings is empty, a run resolves immediately to the
incomplete-configuration notice followed by stream termination, its outcome
is independent of the network (no network call is attempted), and delivering
the emissions leaves the conversation history unchanged with the widget back
at idle. -/
theorem azure_config_failfast (s : Settings) (net net' : Net)
    (md : String → String) (st : ChatState)
    (hapi : s.api_type = "azure_openai")
    (hmiss : s.azure_openai_endpoint = "" ∨ s.azure_openai_deployment = "" ∨
      s.azure_openai_api_key = "") :
    ResponseThread_run s net
        = [.ready "Azure OpenAI configuration is incomplete.", .finished] ∧
      ResponseThread_run s net = ResponseThread_run s net' ∧
      (deliver md st (ResponseThread_run s net)).history = st.history ∧
      (deliver md st (ResponseThread_run s net)).analysis_in_progress = false := by
  have hcond : (pyRstripSlash s.azure_openai_endpoint == "" ||
      s.azure_openai_deployment == "" || s.azure_openai_api_key == "") = true := by
    rcases hmiss with h | h | h
    · rw [h]
      have he : (pyRstripSlash "" == "") = true := by decide
      simp [he]
    · rw [h]
      simp
    · rw [h]
      simp
  have hrun : ∀ n : Net, ResponseThread_run s n =
      [.ready "Azure OpenAI configuration is incomplete.", .finished] := by
    intro n
    unfold ResponseThread_run
    rw [hapi]
    have h1 : (("azure_openai" : String) == "ollama") = false := by decide
    have h2 : (("azure_openai" : String) == "openai") = false := by decide
    have h3 : (("azure_openai" : String) == "azure_openai") = true := by decide
    simp only [h1, h2, h3, Bool.false_eq_true, if_false, if_true]
    unfold process_azure_openai_request
    dsimp only
    rw [hcond]
    simp
  refine ⟨hrun net, by rw [hrun net, hrun net'], ?_, ?_⟩
  · rw [hrun net]
    rfl
  · rw [hrun net]
    rfl

theorem azure_config_failfast_witness :
    ResponseThread_run azureNoKeySettings someNet
        = [.ready "Azure OpenAI configuration is incomplete.", .finished] ∧
      ResponseThread_run azureNoKeySettings someNet
        = ResponseThread_run azureNoKeySettings someOtherNet ∧
      (deliver (fun s => s) initChatState
          (ResponseThread_run azureNoKeySettings someNet)).history
        = initChatState.history ∧
      (deliver (fun s => s) initChatState
          (ResponseThread_run azureNoKeySettings someNet)).analysis_in_progress = false :=
  azure_config_failfast azureNoKeySettings someNet someOtherNet (fun s => s) initChatState
    rfl (Or.inr (Or.inr rfl))

end ErrorInterceptor
